import Mathlib

/-!
Verification of the glslang-sys build/wrapper pipeline.

This file gives a shallow embedding of the repository's two source files:
  src/build.rs  (manifest reader, source acquirer, native build orchestrator,
                 prebuilt verifier, drive-letter allocation)
  src/lib.rs    (the safe compile wrapper and SPIR-V option derivation)
and proves the specified properties about the embedded definitions.

External effects (filesystem, subprocess spawning/exit, the native glslang
library) are modelled by explicit environment records: a definition takes the
outcomes of the external calls as inputs and reproduces the source's control
flow over them.
-/

namespace GlslangSys

/-! ## Manifest reader (build.rs, mod known_good) -/

/-- build.rs, struct Repo: one named external-project descriptor. -/
structure Repo where
  name : String
  url : String
  commit : String
deriving DecidableEq, Repr

/-- build.rs, struct KnownGood: the manifest, an ordered list of descriptors. -/
structure KnownGood where
  repos : List Repo
deriving DecidableEq, Repr

/-- The io::ErrorKind values relevant to manifest loading.
File::open on an absent file yields ErrorKind::NotFound; serde_json's
From conversion into io::Error maps syntax and data errors to
ErrorKind::InvalidData and premature end of input to UnexpectedEof. -/
inductive IOErrorKind where
  | notFound
  | invalidData
  | unexpectedEof
  | other
deriving DecidableEq, Repr

/-- The observable states of the manifest file on disk, as they drive
KnownGood::deserialize_from_path: absent, present but not valid JSON for
the KnownGood shape, or present and well formed. -/
inductive ManifestFile where
  | absent
  | malformed
  | wellFormed (kg : KnownGood)
deriving DecidableEq, Repr

/-- build.rs, KnownGood::deserialize_from_path:
std::fs::File::open(path)? propagates NotFound when the file is absent;
serde_json::from_reader(file)? propagates the JSON error converted to an
io::Error, whose kind for a syntax or data error is InvalidData. -/
def KnownGood.deserialize_from_path : ManifestFile → Except IOErrorKind KnownGood
  | .absent => .error .notFound
  | .malformed => .error .invalidData
  | .wellFormed kg => .ok kg

/-- build.rs, KnownGood::get_repo: self.repos.iter().find(|v| v.name == name). -/
def KnownGood.get_repo (kg : KnownGood) (name : String) : Option Repo :=
  kg.repos.find? (fun v => v.name == name)

/-! ## Prebuilt verifier (build.rs, mod prebuilt) -/

/-- build.rs, enum PrebuiltError. -/
inductive PrebuiltError where
  | versionRegistryNotFound
  | invalidCommit
deriving DecidableEq, Repr

/-- Model of str::to_lowercase applied to the commit strings: lowercase each
character. (Rust lowercases per character here; the revision strings under
comparison are ASCII hex.) -/
def to_lowercase (s : String) : String :=
  ⟨s.data.map Char.toLower⟩

/-- build.rs, get_prebuilt_glslang_install_dir, the match on
(CARGO_CFG_TARGET_OS, CARGO_CFG_TARGET_ARCH): each supported OS asserts an
exact architecture (assert_eq! panics otherwise, modelled as none) and any
other OS hits the catch-all panic. -/
def targetDirFor (target_os target_arch : String) : Option String :=
  if target_os = "windows" then
    if target_arch = "x86_64" then some "x86_64-pc-windows-msvc" else none
  else if target_os = "android" then
    if target_arch = "aarch64" then some "aarch64-linux-android" else none
  else if target_os = "linux" then
    if target_arch = "x86_64" then some "x86_64-unknown-linux-gnu" else none
  else none

/-- build.rs, get_prebuilt_glslang_install_dir.
stamp models the content of prebuilt/version.txt (none when the file is
absent, in which case File::open fails and is mapped to
VersionRegistryNotFound). The outer Option is none exactly when the
function panics (unsupported target pair). The commit comparison and the
returned path follow the source. -/
def get_prebuilt_glslang_install_dir (target_os target_arch commit : String)
    (stamp : Option String) : Option (Except PrebuiltError String) :=
  match targetDirFor target_os target_arch with
  | none => none
  | some target_dir =>
    match stamp with
    | none => some (.error .versionRegistryNotFound)
    | some prebuilt_commit =>
      if to_lowercase commit ≠ to_lowercase prebuilt_commit then
        some (.error .invalidCommit)
      else
        some (.ok ("prebuilt/" ++ target_dir))

/-! ## Theorems for the manifest reader and prebuilt verifier -/

/-- C4: for every stamp-file content R1 and manifest-pinned revision R2, on a
supported target, verification succeeds iff R1 lowercased equals R2
lowercased; it fails with InvalidCommit when they differ; and for any R2 it
fails with VersionRegistryNotFound when the stamp file is absent. -/
theorem prebuilt_verify_spec (target_os target_arch d R1 R2 : String)
    (h : targetDirFor target_os target_arch = some d) :
    (get_prebuilt_glslang_install_dir target_os target_arch R2 (some R1)
        = some (.ok ("prebuilt/" ++ d)) ↔ to_lowercase R1 = to_lowercase R2)
    ∧ (to_lowercase R1 ≠ to_lowercase R2 →
        get_prebuilt_glslang_install_dir target_os target_arch R2 (some R1)
          = some (.error .invalidCommit))
    ∧ get_prebuilt_glslang_install_dir target_os target_arch R2 none
        = some (.error .versionRegistryNotFound) := by
  unfold get_prebuilt_glslang_install_dir
  rw [h]
  constructor
  · by_cases hc : to_lowercase R2 = to_lowercase R1
    · simp [hc]
    · simp [hc]
      exact fun h2 => hc h2.symm
  · constructor
    · intro hne
      have : to_lowercase R2 ≠ to_lowercase R1 := fun h2 => hne h2.symm
      simp [this]
    · rfl

/-- Witness for prebuilt_verify_spec at a concrete supported target and
concrete revisions differing only in case. -/
theorem prebuilt_verify_spec_witness :
    get_prebuilt_glslang_install_dir "linux" "x86_64" "AbC123" (some "abc123")
      = some (.ok ("prebuilt/" ++ "x86_64-unknown-linux-gnu")) :=
  (prebuilt_verify_spec "linux" "x86_64" "x86_64-unknown-linux-gnu"
    "abc123" "AbC123" (by decide)).1.mpr (by decide)

/-- C5 counterexample: a malformed manifest file yields an error of kind
InvalidData, not NotFound, so the claim that loading fails with a NotFound
error when the contents are malformed is false. -/
theorem deserialize_malformed_not_notfound :
    KnownGood.deserialize_from_path .malformed = .error .invalidData
    ∧ IOErrorKind.invalidData ≠ IOErrorKind.notFound := by
  constructor
  · rfl
  · decide

/-- C5 (amended): loading fails with NotFound when the manifest file is
absent and with InvalidData (not NotFound) when its contents are malformed;
lookup returns a descriptor whose name equals the queried name exactly, and
None precisely when no descriptor in the manifest has that name. -/
theorem manifest_load_and_lookup (kg : KnownGood) (n : String) :
    KnownGood.deserialize_from_path .absent = .error .notFound
    ∧ KnownGood.deserialize_from_path .malformed = .error .invalidData
    ∧ (∀ r, kg.get_repo n = some r → r.name = n)
    ∧ (kg.get_repo n = none ↔ ∀ r ∈ kg.repos, r.name ≠ n) := by
  refine ⟨rfl, rfl, ?_, ?_⟩
  · intro r hr
    have := List.find?_some hr
    simpa using this
  · unfold KnownGood.get_repo
    rw [List.find?_eq_none]
    constructor
    · intro h r hr
      have := h r hr
      simpa using this
    · intro h r hr
      simpa using h r hr

/-- Witness for manifest_load_and_lookup: lookup on a concrete one-entry
manifest returns the entry with the queried name. -/
theorem manifest_load_and_lookup_witness :
    (⟨"glslang", "https://github.com/KhronosGroup/glslang.git", "c594de2"⟩ : Repo).name
      = "glslang" :=
  (manifest_load_and_lookup
      ⟨[⟨"glslang", "https://github.com/KhronosGroup/glslang.git", "c594de2"⟩]⟩
      "glslang").2.2.1
    ⟨"glslang", "https://github.com/KhronosGroup/glslang.git", "c594de2"⟩ rfl

/-- C10: the prebuilt install-directory selection accepts exactly the three
fixed (target OS, target architecture) pairs, panicking (none) on any other
pair; in particular (android, arm) is rejected by the prebuilt path even
though the build-from-source ABI mapping supports arm. -/
theorem prebuilt_target_pairs_spec :
    (∀ target_os target_arch : String,
      (targetDirFor target_os target_arch).isSome = true ↔
        ((target_os = "windows" ∧ target_arch = "x86_64")
          ∨ (target_os = "android" ∧ target_arch = "aarch64")
          ∨ (target_os = "linux" ∧ target_arch = "x86_64")))
    ∧ targetDirFor "android" "arm" = none := by
  constructor
  · intro target_os target_arch
    unfold targetDirFor
    split_ifs with h1 h2 h3 h4 h5 h6 <;> simp_all
  · rfl

/-! ## Source acquirer (build.rs, Builder::fetch_glslang) -/

/-- The outcome of launching one external process: whether the spawn itself
succeeded (Command::output / Command::status returning Ok), and whether the
process exited with status zero (output.status.success()). -/
structure Proc where
  spawn_ok : Bool
  exit_ok : Bool
deriving DecidableEq, Repr

/-- How a call to fetch_glslang can end: Ok(()), Err(io error), or a panic
(an unwrap failing). -/
inductive FetchResult where
  | ok
  | ioError
  | panicked
deriving DecidableEq, Repr

/-- The external processes launched by fetch_glslang, in program order. -/
structure FetchEnv where
  git_init : Proc
  git_remote_add : Proc
  git_fetch : Proc
  git_reset : Proc
  googletest_clone : Proc
  update_script : Proc
deriving DecidableEq, Repr

/-- build.rs, Builder::fetch_glslang, the fallible control flow over the six
external processes. Each git step uses Command::output()?, which returns Err
only when spawning fails; the exit status of those steps is written to stdout
and otherwise ignored. The update_glslang_sources script uses
Command::status().unwrap(), which panics when spawning fails and ignores the
exit status. The final check tests output.status.success() where output is
the binding from the googletest clone step. -/
def fetch_glslang (env : FetchEnv) : FetchResult :=
  if env.git_init.spawn_ok = false then .ioError
  else if env.git_remote_add.spawn_ok = false then .ioError
  else if env.git_fetch.spawn_ok = false then .ioError
  else if env.git_reset.spawn_ok = false then .ioError
  else if env.googletest_clone.spawn_ok = false then .ioError
  else if env.update_script.spawn_ok = false then .panicked
  else if env.googletest_clone.exit_ok then .ok
  else .ioError

/-! ## Drive-letter allocation (build.rs, get_win32_unused_drive_letters) -/

/-- build.rs, get_win32_unused_drive_letters: the loop
while bitfield != 0, pushing the current letter when the low bit is clear,
then incrementing the letter and shifting the bitfield right. The bitfield
is the u32 returned by GetLogicalDrives (bit i set means the drive with
letter code 65 + i is in use), so 32 shift steps always reach zero; the
first argument counts the remaining shifts of the 32-bit word. -/
def unusedDriveLettersGo : Nat → Nat → Nat → List Nat
  | 0, _, _ => []
  | fuel + 1, bitfield, letter =>
    if bitfield = 0 then []
    else if bitfield % 2 = 0 then
      letter :: unusedDriveLettersGo fuel (bitfield / 2) (letter + 1)
    else
      unusedDriveLettersGo fuel (bitfield / 2) (letter + 1)

/-- build.rs, get_win32_unused_drive_letters, starting from letter code 65
(the character A). Letters are represented by their code points. -/
def get_win32_unused_drive_letters (bitfield : Nat) : List Nat :=
  unusedDriveLettersGo 32 bitfield 65

/-- The drive-letter allocation failure (BuilderError::NoAvailableDriveLetter). -/
inductive DriveLetterError where
  | noAvailableDriveLetter
deriving DecidableEq, Repr

/-- build.rs, Builder::build_glslang lines 177-180:
unused_drive_letters.first().ok_or(BuilderError::NoAvailableDriveLetter). -/
def allocateDriveLetter (bitfield : Nat) : Except DriveLetterError Nat :=
  match (get_win32_unused_drive_letters bitfield).head? with
  | some c => .ok c
  | none => .error .noAvailableDriveLetter

/-! ## Native build orchestrator (build.rs, Builder::build_glslang) -/

/-- build.rs, the match on target_arch inside the android configure arm:
aarch64 and arm map to fixed ABI names, anything else panics (none). -/
def androidAbiName (target_arch : String) : Option String :=
  if target_arch = "aarch64" then some "arm64-v8a"
  else if target_arch = "arm" then some "armeabi-v7a"
  else none

/-- build.rs, add_cmake_glslang_options: appends the two glslang flags. -/
def add_cmake_glslang_options (args : List String) : List String :=
  args ++ ["-DENABLE_OPT=OFF", "-DENABLE_SPVREMAPPER=OFF"]

/-- build.rs, add_cmake_spirv_tools_options: appends the two SPIRV-Tools
flags. -/
def add_cmake_spirv_tools_options (args : List String) : List String :=
  args ++ ["-DSPIRV_SKIP_TESTS=ON", "-DSPIRV_SKIP_EXECUTABLES=ON"]

/-- build.rs, Builder::build_glslang, the argument list handed to the cmake
configure invocation for each target_os branch of the match, with the
catch-all branch panicking (none). The android branch first maps the
architecture to an ABI name (panicking on an unknown architecture) and reads
ANDROID_NDK_HOME, passed here as android_ndk_home. -/
def configureArgs (target_os target_arch android_ndk_home : String) :
    Option (List String) :=
  if target_os = "windows" then
    some (add_cmake_spirv_tools_options (add_cmake_glslang_options
      ["..", "-DCMAKE_INSTALL_PREFIX=install"]))
  else if target_os = "android" then
    match androidAbiName target_arch with
    | none => none
    | some abi =>
      some (add_cmake_spirv_tools_options (add_cmake_glslang_options
        ["..", "-G", "Unix Makefiles", "-DCMAKE_INSTALL_PREFIX=install"]) ++
        ["-DANDROID_ABI=" ++ abi,
         "-DCMAKE_BUILD_TYPE=Release",
         "-DANDROID_STL=c++_shared",
         "-DANDROID_PLATFORM=android-24",
         "-DCMAKE_SYSTEM_NAME=Android",
         "-DANDROID_TOOLCHAIN=clang",
         "-DANDROID_ARM_MODE=arm",
         "-DCMAKE_MAKE_PROGRAM=" ++ android_ndk_home
           ++ "/prebuilt/windows-x86_64/bin/make.exe",
         "-DCMAKE_TOOLCHAIN_FILE=" ++ android_ndk_home
           ++ "/build/cmake/android.toolchain.cmake"])
  else if target_os = "linux" then
    some (add_cmake_spirv_tools_options (add_cmake_glslang_options
      ["..", "-DCMAKE_BUILD_TYPE=Release", "-DCMAKE_INSTALL_PREFIX=install"]))
  else none

/-- The four flags contributed by add_cmake_glslang_options and
add_cmake_spirv_tools_options together: the fixed base flag set. -/
def cmakeBaseFlags : List String :=
  ["-DENABLE_OPT=OFF", "-DENABLE_SPVREMAPPER=OFF",
   "-DSPIRV_SKIP_TESTS=ON", "-DSPIRV_SKIP_EXECUTABLES=ON"]

/-- The captured Output of one subprocess: exit-status success flag and the
captured stdout/stderr bytes (as text). -/
structure ProcOutput where
  success : Bool
  stdout : String
  stderr : String
deriving DecidableEq, Repr

/-- build.rs, enum BuilderError, the two cmake-phase failures, each carrying
the captured process output. -/
inductive BuildError where
  | configureFailed (output : ProcOutput)
  | buildFailed (output : ProcOutput)
deriving DecidableEq, Repr

/-- The result of Builder::build_glslang together with whether the build
phase was reached (a cmake --build or make invocation was launched). -/
structure BuildTrace where
  result : Except BuildError String
  buildInvoked : Bool
deriving Repr

/-- build.rs, install_dir_path =
glslang_clone_dst_dir_path / (build-target_os-target_arch) / install. -/
def installDirPath (clone_dir target_os target_arch : String) : String :=
  clone_dir ++ "/build-" ++ target_os ++ "-" ++ target_arch ++ "/install"

/-- build.rs, Builder::build_glslang, phase structure: the configure match
(argument list per target OS, catch-all panic modelled as none), early
return of ConfigureFailed carrying the captured output when the configure
process exits non-zero, then the build invocation, returning BuildFailed
carrying the captured output or the install directory path.
configureOutput and buildOutput are the captured outputs of the two
subprocesses. -/
def build_glslang (clone_dir target_os target_arch android_ndk_home : String)
    (configureOutput buildOutput : ProcOutput) : Option BuildTrace :=
  match configureArgs target_os target_arch android_ndk_home with
  | none => none
  | some _ =>
    if configureOutput.success = false then
      some ⟨.error (.configureFailed configureOutput), false⟩
    else if buildOutput.success = false then
      some ⟨.error (.buildFailed buildOutput), true⟩
    else
      some ⟨.ok (installDirPath clone_dir target_os target_arch), true⟩

/-! ## Scoped working-directory restoration (build.rs, scopeguard::defer) -/

/-- Model of scopeguard's defer block: the cleanup recorded at guard
creation runs when the enclosing scope is left, on normal return and during
unwinding alike, after the body has finished with whatever state and
outcome it produced. -/
def withScopeGuard {σ α : Type} (cleanup : σ → σ) (body : σ → σ × α)
    (s : σ) : σ × α :=
  let r := body s
  (cleanup r.1, r.2)

/-- build.rs, Builder::fetch_glslang, the working-directory effects: save
env::current_dir at entry, defer restoring it, change into the clone
destination directory, run the fetch steps (which can return Ok, return an
I/O error, or panic). The pair is (final current directory, outcome). -/
def fetch_glslang_cwd (entry_cwd clone_dir : String) (env : FetchEnv) :
    String × FetchResult :=
  withScopeGuard (fun _ => entry_cwd)
    (fun _ => (clone_dir, fetch_glslang env))
    entry_cwd

/-- build.rs, Builder::build_glslang, the working-directory effects: save
env::current_dir at entry, defer restoring it, change into the clone
directory and then into the per-target build directory, run the configure
and build phases (which can succeed, fail, or panic on an unsupported
target). The pair is (final current directory, outcome with none for
panic). -/
def build_glslang_cwd (entry_cwd clone_dir target_os target_arch
    android_ndk_home : String) (configureOutput buildOutput : ProcOutput) :
    String × Option BuildTrace :=
  withScopeGuard (fun _ => entry_cwd)
    (fun _ =>
      (clone_dir ++ "/build-" ++ target_os ++ "-" ++ target_arch,
       build_glslang clone_dir target_os target_arch android_ndk_home
         configureOutput buildOutput))
    entry_cwd

/-! ## Theorems for the source acquirer -/

/-- A fetch run in which git init launches but exits non-zero while every
other step launches and exits zero. -/
def gitInitFailEnv : FetchEnv :=
  { git_init := ⟨true, false⟩
    git_remote_add := ⟨true, true⟩
    git_fetch := ⟨true, true⟩
    git_reset := ⟨true, true⟩
    googletest_clone := ⟨true, true⟩
    update_script := ⟨true, true⟩ }

/-- C2 counterexample: when git init exits with a non-zero status (and every
process spawns and the googletest clone exits zero), fetch_glslang returns
Ok, so the claim that a non-zero exit of any step yields an I/O error is
false. -/
theorem fetch_ok_despite_git_init_failure :
    gitInitFailEnv.git_init.exit_ok = false
    ∧ fetch_glslang gitInitFailEnv = .ok := by
  decide

/-- C2 (amended): fetch propagates an I/O error when spawning any of the git
steps or the googletest clone fails, and panics when the source-sync script
cannot be spawned; of the exit statuses only the googletest clone's is
consulted: fetch returns Ok iff every process spawns and the googletest
clone exits zero. Non-zero exits of git init, remote add, fetch, reset and
the sync script do not make fetch fail. -/
theorem fetch_result_characterization (env : FetchEnv) :
    fetch_glslang env = .ok ↔
      (env.git_init.spawn_ok = true ∧ env.git_remote_add.spawn_ok = true
        ∧ env.git_fetch.spawn_ok = true ∧ env.git_reset.spawn_ok = true
        ∧ env.googletest_clone.spawn_ok = true
        ∧ env.update_script.spawn_ok = true
        ∧ env.googletest_clone.exit_ok = true) := by
  obtain ⟨⟨a1, a2⟩, ⟨b1, b2⟩, ⟨c1, c2⟩, ⟨d1, d2⟩, ⟨e1, e2⟩, ⟨f1, f2⟩⟩ := env
  revert a1 a2 b1 b2 c1 c2 d1 d2 e1 e2 f1 f2
  decide

/-! ## Theorems for drive-letter allocation -/

/-- The scan returns the empty list whenever no clear bit lies strictly
below a set bit (in particular when the bitfield is zero or all-ones up to
its width): the loop stops at the highest set bit and never reports the
free letters above it. -/
theorem unusedDriveLettersGo_eq_nil (fuel : Nat) :
    ∀ (b letter : Nat), b < 2 ^ fuel →
      (∀ i j, i < j → b.testBit i = false → b.testBit j = false) →
      unusedDriveLettersGo fuel b letter = [] := by
  induction fuel with
  | zero =>
    intro b letter hb h
    have hb0 : b = 0 := by simpa using hb
    subst hb0
    rfl
  | succ fuel ih =>
    intro b letter hb h
    by_cases hb0 : b = 0
    · subst hb0
      simp [unusedDriveLettersGo]
    · by_cases hpar : b % 2 = 0
      · exfalso
        have hbit0 : b.testBit 0 = false := by
          simp [Nat.testBit_zero, hpar]
        have hall : ∀ i, b.testBit i = false := by
          intro i
          cases i with
          | zero => exact hbit0
          | succ i => exact h 0 (i + 1) (Nat.succ_pos i) hbit0
        exact hb0 (Nat.eq_of_testBit_eq fun i => by
          rw [hall i, Nat.zero_testBit])
      · have hstep : unusedDriveLettersGo (fuel + 1) b letter
            = unusedDriveLettersGo fuel (b / 2) (letter + 1) := by
          simp [unusedDriveLettersGo, hb0, hpar]
        rw [hstep]
        apply ih (b / 2) (letter + 1)
        · rw [pow_succ] at hb
          omega
        · intro i j hij hi
          rw [← Nat.testBit_add_one] at hi ⊢
          exact h (i + 1) (j + 1) (by omega) hi

/-- When some clear bit lies strictly below a set bit, the scan's first
element is the letter at the least clear bit. -/
theorem unusedDriveLettersGo_head (fuel : Nat) :
    ∀ (b letter i j : Nat), b < 2 ^ fuel →
      i < j → b.testBit i = false → b.testBit j = true →
      ∃ k, b.testBit k = false ∧ (∀ m, m < k → b.testBit m = true) ∧
        (unusedDriveLettersGo fuel b letter).head? = some (letter + k) := by
  induction fuel with
  | zero =>
    intro b letter i j hb hij hi hj
    have hb0 : b = 0 := by simpa using hb
    subst hb0
    rw [Nat.zero_testBit] at hj
    exact absurd hj (by simp)
  | succ fuel ih =>
    intro b letter i j hb hij hi hj
    have hb0 : b ≠ 0 := by
      intro h0
      subst h0
      rw [Nat.zero_testBit] at hj
      exact absurd hj (by simp)
    by_cases hpar : b % 2 = 0
    · refine ⟨0, ?_, ?_, ?_⟩
      · simp [Nat.testBit_zero, hpar]
      · intro m hm
        exact absurd hm (Nat.not_lt_zero m)
      · have hstep : unusedDriveLettersGo (fuel + 1) b letter
            = letter :: unusedDriveLettersGo fuel (b / 2) (letter + 1) := by
          simp [unusedDriveLettersGo, hb0, hpar]
        rw [hstep]
        simp
    · have hmod : b % 2 = 1 := (Nat.mod_two_eq_zero_or_one b).resolve_left hpar
      have hbit0 : b.testBit 0 = true := by
        simp [Nat.testBit_zero, hmod]
      have hi0 : i ≠ 0 := by
        intro h0
        subst h0
        rw [hi] at hbit0
        exact absurd hbit0 (by simp)
      obtain ⟨i, rfl⟩ : ∃ a, i = a + 1 := ⟨i - 1, by omega⟩
      obtain ⟨j, rfl⟩ : ∃ a, j = a + 1 := ⟨j - 1, by omega⟩
      rw [Nat.testBit_add_one] at hi hj
      have hdiv : b / 2 < 2 ^ fuel := by
        rw [pow_succ] at hb
        omega
      obtain ⟨k, hk1, hk2, hk3⟩ :=
        ih (b / 2) (letter + 1) i j hdiv (by omega) hi hj
      refine ⟨k + 1, ?_, ?_, ?_⟩
      · rw [Nat.testBit_add_one]
        exact hk1
      · intro m hm
        cases m with
        | zero => exact hbit0
        | succ m =>
          rw [Nat.testBit_add_one]
          exact hk2 m (by omega)
      · have hstep : unusedDriveLettersGo (fuel + 1) b letter
            = unusedDriveLettersGo fuel (b / 2) (letter + 1) := by
          simp [unusedDriveLettersGo, hb0, hpar]
        rw [hstep, hk3]
        congr 1
        omega

/-- C3 counterexample: with only drive A in use (bitfield 1), letter B
(code 66, bit 1 clear) is free, yet allocation fails with
NoAvailableDriveLetter, so the claim that allocation succeeds whenever some
letter is free is false. -/
theorem allocate_fails_with_free_letter :
    Nat.testBit 1 1 = false
    ∧ allocateDriveLetter 1 = .error .noAvailableDriveLetter :=
  ⟨by decide, rfl⟩

/-- C3 (amended): for every 32-bit bitmask of in-use drive letters,
allocation fails with NoAvailableDriveLetter whenever no free letter lies
strictly below an in-use letter — in particular when every letter A-Z is in
use, and also when all letters are free or the free letters all lie above
every in-use letter; and whenever some free letter lies below an in-use
letter, allocation succeeds with the lexicographically least free letter
(code 65 + k for the least clear bit k). -/
theorem allocate_drive_letter_characterization (mask : Nat)
    (hm : mask < 2 ^ 32) :
    ((∀ i j, i < j → mask.testBit i = false → mask.testBit j = false) →
      allocateDriveLetter mask = .error .noAvailableDriveLetter)
    ∧ (∀ i j, i < j → mask.testBit i = false → mask.testBit j = true →
      ∃ k, mask.testBit k = false ∧ (∀ m, m < k → mask.testBit m = true) ∧
        allocateDriveLetter mask = .ok (65 + k)) := by
  constructor
  · intro h
    have hnil := unusedDriveLettersGo_eq_nil 32 mask 65 hm h
    unfold allocateDriveLetter get_win32_unused_drive_letters
    rw [hnil]
    rfl
  · intro i j hij hi hj
    obtain ⟨k, hk1, hk2, hk3⟩ :=
      unusedDriveLettersGo_head 32 mask 65 i j hm hij hi hj
    refine ⟨k, hk1, hk2, ?_⟩
    unfold allocateDriveLetter get_win32_unused_drive_letters
    rw [hk3]

/-- Witness for allocate_drive_letter_characterization at bitfield 5
(drives A and C in use): bit 1 is the least clear bit below the set bit 2,
and allocation returns letter code 66 (B). -/
theorem allocate_drive_letter_characterization_witness :
    ∃ k, Nat.testBit 5 k = false ∧ (∀ m, m < k → Nat.testBit 5 m = true) ∧
      allocateDriveLetter 5 = .ok (65 + k) :=
  (allocate_drive_letter_characterization 5 (by norm_num)).2 1 2
    (by decide) (by decide) (by decide)

/-! ## Theorems for the native build orchestrator -/

/-- C6: for each supported target OS the configure argument list is exactly
the fixed prelude plus the full base flag set (optimizer pass off, remapper
off, backend tests skipped, backend executables skipped) plus exactly the
target-specific additions and nothing else; any other target OS panics
unconditionally. -/
theorem configure_args_spec (target_arch android_ndk_home : String) :
    configureArgs "windows" target_arch android_ndk_home
      = some (["..", "-DCMAKE_INSTALL_PREFIX=install"] ++ cmakeBaseFlags)
    ∧ configureArgs "android" "aarch64" android_ndk_home
      = some (["..", "-G", "Unix Makefiles", "-DCMAKE_INSTALL_PREFIX=install"]
          ++ cmakeBaseFlags
          ++ ["-DANDROID_ABI=arm64-v8a",
              "-DCMAKE_BUILD_TYPE=Release",
              "-DANDROID_STL=c++_shared",
              "-DANDROID_PLATFORM=android-24",
              "-DCMAKE_SYSTEM_NAME=Android",
              "-DANDROID_TOOLCHAIN=clang",
              "-DANDROID_ARM_MODE=arm",
              "-DCMAKE_MAKE_PROGRAM=" ++ android_ndk_home
                ++ "/prebuilt/windows-x86_64/bin/make.exe",
              "-DCMAKE_TOOLCHAIN_FILE=" ++ android_ndk_home
                ++ "/build/cmake/android.toolchain.cmake"])
    ∧ configureArgs "android" "arm" android_ndk_home
      = some (["..", "-G", "Unix Makefiles", "-DCMAKE_INSTALL_PREFIX=install"]
          ++ cmakeBaseFlags
          ++ ["-DANDROID_ABI=armeabi-v7a",
              "-DCMAKE_BUILD_TYPE=Release",
              "-DANDROID_STL=c++_shared",
              "-DANDROID_PLATFORM=android-24",
              "-DCMAKE_SYSTEM_NAME=Android",
              "-DANDROID_TOOLCHAIN=clang",
              "-DANDROID_ARM_MODE=arm",
              "-DCMAKE_MAKE_PROGRAM=" ++ android_ndk_home
                ++ "/prebuilt/windows-x86_64/bin/make.exe",
              "-DCMAKE_TOOLCHAIN_FILE=" ++ android_ndk_home
                ++ "/build/cmake/android.toolchain.cmake"])
    ∧ configureArgs "linux" target_arch android_ndk_home
      = some (["..", "-DCMAKE_BUILD_TYPE=Release",
               "-DCMAKE_INSTALL_PREFIX=install"] ++ cmakeBaseFlags)
    ∧ (∀ target_os, target_os ≠ "windows" → target_os ≠ "android" →
        target_os ≠ "linux" →
        configureArgs target_os target_arch android_ndk_home = none) := by
  refine ⟨rfl, rfl, rfl, rfl, ?_⟩
  intro target_os h1 h2 h3
  simp [configureArgs, h1, h2, h3]

/-- Witness for configure_args_spec: an unsupported target OS is a fatal
error. -/
theorem configure_args_spec_witness :
    configureArgs "macos" "x86_64" "/ndk" = none :=
  (configure_args_spec "x86_64" "/ndk").2.2.2.2 "macos"
    (by decide) (by decide) (by decide)

/-- C7: a configure-phase failure returns ConfigureFailed carrying the
captured output and short-circuits before any build-phase invocation; a
build-phase failure returns BuildFailed carrying the captured output; on
success build returns the install subdirectory path. -/
theorem build_phase_error_spec
    (clone_dir target_os target_arch android_ndk_home : String)
    (cfg bld : ProcOutput) (args : List String)
    (h : configureArgs target_os target_arch android_ndk_home = some args) :
    (cfg.success = false →
      build_glslang clone_dir target_os target_arch android_ndk_home cfg bld
        = some ⟨.error (.configureFailed cfg), false⟩)
    ∧ (cfg.success = true → bld.success = false →
      build_glslang clone_dir target_os target_arch android_ndk_home cfg bld
        = some ⟨.error (.buildFailed bld), true⟩)
    ∧ (cfg.success = true → bld.success = true →
      build_glslang clone_dir target_os target_arch android_ndk_home cfg bld
        = some ⟨.ok (installDirPath clone_dir target_os target_arch), true⟩)
    := by
  unfold build_glslang
  rw [h]
  refine ⟨?_, ?_, ?_⟩ <;> intros <;> simp_all

/-- Witness for build_phase_error_spec: a failing configure run on the
linux target returns ConfigureFailed with the captured output and does not
invoke the build phase. -/
theorem build_phase_error_spec_witness :
    build_glslang "/c" "linux" "x86_64" "" ⟨false, "out", "err"⟩ ⟨true, "", ""⟩
      = some ⟨.error (.configureFailed ⟨false, "out", "err"⟩), false⟩ :=
  (build_phase_error_spec "/c" "linux" "x86_64" ""
    ⟨false, "out", "err"⟩ ⟨true, "", ""⟩
    (["..", "-DCMAKE_BUILD_TYPE=Release", "-DCMAKE_INSTALL_PREFIX=install"]
      ++ cmakeBaseFlags) rfl).1 rfl

/-- C9: for every invocation of fetch and of build — whatever the outcome,
Ok, error, or panic partway through (the deferred restore runs during
unwinding as well) — the working directory on exit equals the working
directory on entry. -/
theorem cwd_restored_spec
    (entry_cwd clone_dir target_os target_arch android_ndk_home : String)
    (fenv : FetchEnv) (cfg bld : ProcOutput) :
    (fetch_glslang_cwd entry_cwd clone_dir fenv).1 = entry_cwd
    ∧ (build_glslang_cwd entry_cwd clone_dir target_os target_arch
        android_ndk_home cfg bld).1 = entry_cwd :=
  ⟨rfl, rfl⟩

/-! ## Safe wrapper (lib.rs) -/

/-- lib.rs, glslang_spv_options_t: the SPIR-V generation options record. -/
structure glslang_spv_options_t where
  generate_debug_info : Bool
  strip_debug_info : Bool
  disable_optimizer : Bool
  optimize_size : Bool
  disassemble : Bool
  validate : Bool
  emit_nonsemantic_shader_debug_info : Bool
  emit_nonsemantic_shader_debug_source : Bool
deriving DecidableEq, Repr

/-- lib.rs, impl Default for glslang_spv_options_t: every field false except
disable_optimizer, which is true. -/
def glslang_spv_options_default : glslang_spv_options_t :=
  { generate_debug_info := false
    strip_debug_info := false
    disable_optimizer := true
    optimize_size := false
    disassemble := false
    validate := false
    emit_nonsemantic_shader_debug_info := false
    emit_nonsemantic_shader_debug_source := false }

/-- lib.rs, CompileOptionFlags (bitflags): GenerateDebugInfo is bit 0,
AddOpSource is bit 1; a flags value is the set of bits present. -/
structure CompileOptionFlags where
  generateDebugInfo : Bool
  addOpSource : Bool
deriving DecidableEq, Repr

/-- lib.rs, struct GlslangErrorLog. -/
structure GlslangErrorLog where
  context : String
  info_log : String
  debug_log : String
deriving DecidableEq, Repr

/-- The behaviour of the native glslang library during one compile call:
the status each of preprocess/parse/link returns (0 modelled as false), the
info/debug log texts readable from the shader and program objects, and the
SPIR-V words the generator produces. -/
structure GlslangOracle where
  preprocess_ok : Bool
  parse_ok : Bool
  link_ok : Bool
  shader_info_log : String
  shader_debug_log : String
  program_info_log : String
  program_debug_log : String
  spirv : List Nat
deriving DecidableEq, Repr

/-- What a compile call has done by the time it returns: its result, which
native objects were created, which were deleted before returning, and the
SPIR-V options record passed to the generator (none when generation was
never reached). -/
structure CompileOutcome where
  result : Except GlslangErrorLog (List Nat)
  shader_created : Bool
  shader_deleted : Bool
  program_created : Bool
  program_deleted : Bool
  spv_options : Option glslang_spv_options_t
deriving Repr

/-- lib.rs, compile: glslang_shader_create runs unconditionally; a falsy
preprocess or parse status returns Err built from the shader logs with the
step name as context, before glslang_program_create runs; then the program
is created and a falsy link status returns Err built from the program logs.
None of these early returns calls glslang_shader_delete or
glslang_program_delete. On the success path the options record is the
Default with generate_debug_info set iff the flags intersect
GenerateDebugInfo | AddOpSource and validate set true; generation runs, the
words are copied out, and only then are the program and shader deleted. -/
def compile (env : GlslangOracle) (flags : CompileOptionFlags) :
    CompileOutcome :=
  if env.preprocess_ok = false then
    { result := .error ⟨"glslang_shader_preprocess",
        env.shader_info_log, env.shader_debug_log⟩
      shader_created := true
      shader_deleted := false
      program_created := false
      program_deleted := false
      spv_options := none }
  else if env.parse_ok = false then
    { result := .error ⟨"glslang_shader_parse",
        env.shader_info_log, env.shader_debug_log⟩
      shader_created := true
      shader_deleted := false
      program_created := false
      program_deleted := false
      spv_options := none }
  else if env.link_ok = false then
    { result := .error ⟨"glslang_program_link",
        env.program_info_log, env.program_debug_log⟩
      shader_created := true
      shader_deleted := false
      program_created := true
      program_deleted := false
      spv_options := none }
  else
    { result := .ok env.spirv
      shader_created := true
      shader_deleted := true
      program_created := true
      program_deleted := true
      spv_options := some { glslang_spv_options_default with
        generate_debug_info := flags.generateDebugInfo || flags.addOpSource
        validate := true } }

/-- An oracle whose preprocess step reports failure. -/
def preprocessFailOracle : GlslangOracle :=
  ⟨false, true, true, "info", "debug", "", "", []⟩

/-- An oracle whose link step reports failure. -/
def linkFailOracle : GlslangOracle :=
  ⟨true, true, false, "", "", "info", "debug", []⟩

/-- An oracle on which every step succeeds. -/
def allOkOracle : GlslangOracle :=
  ⟨true, true, true, "", "", "", "", [119734787]⟩

/-- C1, evaluated at the failing inputs: on a preprocess failure compile
returns Err with the shader object created but not deleted; on a link
failure it returns Err with both the shader and the program created and
neither deleted; only the success path deletes both. This contradicts the
claim that both native objects are destroyed on the error paths as well as
the success path. -/
theorem compile_error_paths_leak_native_objects :
    ((compile preprocessFailOracle ⟨false, false⟩).result
        = .error ⟨"glslang_shader_preprocess", "info", "debug"⟩
      ∧ (compile preprocessFailOracle ⟨false, false⟩).shader_created = true
      ∧ (compile preprocessFailOracle ⟨false, false⟩).shader_deleted = false)
    ∧ ((compile linkFailOracle ⟨false, false⟩).result
        = .error ⟨"glslang_program_link", "info", "debug"⟩
      ∧ (compile linkFailOracle ⟨false, false⟩).shader_deleted = false
      ∧ (compile linkFailOracle ⟨false, false⟩).program_created = true
      ∧ (compile linkFailOracle ⟨false, false⟩).program_deleted = false)
    ∧ ((compile allOkOracle ⟨false, false⟩).shader_deleted = true
      ∧ (compile allOkOracle ⟨false, false⟩).program_deleted = true) :=
  ⟨⟨rfl, rfl, rfl⟩, ⟨rfl, rfl, rfl, rfl⟩, ⟨rfl, rfl⟩⟩

/-- C8: whenever compile passes an options record to SPIR-V generation,
debug-info generation is enabled iff the GenerateDebugInfo flag or the
AddOpSource flag is set, validation is enabled, and the optimizer is
disabled. -/
theorem spv_options_spec (env : GlslangOracle) (flags : CompileOptionFlags)
    (o : glslang_spv_options_t)
    (h : (compile env flags).spv_options = some o) :
    o.generate_debug_info = (flags.generateDebugInfo || flags.addOpSource)
    ∧ (o.generate_debug_info = true ↔
        (flags.generateDebugInfo = true ∨ flags.addOpSource = true))
    ∧ o.validate = true
    ∧ o.disable_optimizer = true := by
  unfold compile at h
  split_ifs at h with h1 h2 h3
  obtain rfl := (Option.some.inj h).symm
  refine ⟨rfl, ?_, rfl, rfl⟩
  simp [Bool.or_eq_true]

/-- The options record the success path passes when GenerateDebugInfo is
set and AddOpSource is not. -/
def spvOptionsDebugOnly : glslang_spv_options_t :=
  { glslang_spv_options_default with
    generate_debug_info := true
    validate := true }

/-- An all-steps-succeed oracle for the spv_options_spec witness. -/
def spvWitnessOracle : GlslangOracle :=
  ⟨true, true, true, "", "", "", "", [119734787, 65536]⟩

/-- Witness for spv_options_spec on a successful compile with only the
GenerateDebugInfo flag set. -/
theorem spv_options_spec_witness :
    spvOptionsDebugOnly.generate_debug_info = (true || false)
    ∧ (spvOptionsDebugOnly.generate_debug_info = true ↔
        (true = true ∨ false = true))
    ∧ spvOptionsDebugOnly.validate = true
    ∧ spvOptionsDebugOnly.disable_optimizer = true :=
  spv_options_spec spvWitnessOracle ⟨true, false⟩ spvOptionsDebugOnly rfl

end GlslangSys
